import Mathlib

/-!
# Verification of `cmd/main/main.go` (go-quest-north-star)

A shallow embedding of the program's handlers and of its start-up sequence.

* Go strings are Lean `String`s, the chat identifier (`int64`, never used in
  arithmetic) is an `Int`.
* A Go `error` result is an `Option GoError`: `none` is `nil`.
* `quest.MessageSender` is an interface of the `quest` package; a value of it
  is a pair of operations over a private state `σ`, so that the outcome of a
  send may depend on everything sent before.
* Side effects (sends, `slog.Error`, `time.Sleep`) are appended, in program
  order, to the trace of an explicit `World`.
* Run-time panics of the Go program are outside the model.
-/

namespace NorthStar

/-! ## Values of the Go run time -/

/-- A non-nil Go `error`; `Error` is the text that `err.Error()` returns. -/
structure GoError where
  Error : String
deriving DecidableEq, Repr

/-- One nanosecond-based `time.Duration` unit: `time.Second`. -/
def Second : Nat := 1000000000

/-- One observable side effect of a handler. -/
inductive Effect where
  | SendPhoto (chatID : Int) (path : String)
  | SendMessage (chatID : Int) (text : String)
  | Sleep (d : Nat)
  | slogError (msg : String) (err : String)
deriving DecidableEq, Repr

/-- The interface `quest.MessageSender`: the two operations the handlers call.
Each takes the sender's current private state and returns the `error` result
together with the next state. -/
structure MessageSender (σ : Type) where
  SendMessage : σ → Int → String → Option GoError × σ
  SendPhoto : σ → Int → String → Option GoError × σ

/-- The state a handler runs in: the sender's private state and the effects
performed so far, oldest first. -/
structure World (σ : Type) where
  sender : σ
  trace : List Effect

/-- The Go type `func(chatID int64, sender quest.MessageSender) error`. -/
abbrev Handler (σ : Type) : Type :=
  Int → MessageSender σ → World σ → Option GoError × World σ

/-- The call `sender.SendMessage(chatID, text)`. -/
def doSendMessage {σ : Type} (sender : MessageSender σ) (chatID : Int) (text : String)
    (w : World σ) : Option GoError × World σ :=
  ((sender.SendMessage w.sender chatID text).1,
   { sender := (sender.SendMessage w.sender chatID text).2,
     trace := w.trace ++ [Effect.SendMessage chatID text] })

/-- The call `sender.SendPhoto(chatID, path)`. -/
def doSendPhoto {σ : Type} (sender : MessageSender σ) (chatID : Int) (path : String)
    (w : World σ) : Option GoError × World σ :=
  ((sender.SendPhoto w.sender chatID path).1,
   { sender := (sender.SendPhoto w.sender chatID path).2,
     trace := w.trace ++ [Effect.SendPhoto chatID path] })

/-- The call `time.Sleep(d)`: it takes no cancellation context and returns
only when the whole duration has elapsed. -/
def Sleep {σ : Type} (d : Nat) (w : World σ) : World σ :=
  { w with trace := w.trace ++ [Effect.Sleep d] }

/-- The call `slog.Error(msg, "error", err)`. -/
def slogError {σ : Type} (msg : String) (err : String) (w : World σ) : World σ :=
  { w with trace := w.trace ++ [Effect.slogError msg err] }

/-- The verbs of a `fmt` format string, as far as this program uses them:
`%s` is replaced by the next argument (by `%!s(MISSING)` when none is left),
`%%` by a percent sign, every other character is copied. -/
def fmtVerbs : List Char → List String → List Char
  | [], _ => []
  | '%' :: 's' :: rest, a :: args => a.data ++ fmtVerbs rest args
  | '%' :: 's' :: rest, [] => "%!s(MISSING)".data ++ fmtVerbs rest []
  | '%' :: '%' :: rest, args => '%' :: fmtVerbs rest args
  | c :: rest, args => c :: fmtVerbs rest args

/-- The call `fmt.Sprintf(format, args...)` with string arguments. -/
def Sprintf (format : String) (args : List String) : String :=
  ⟨fmtVerbs format.data args⟩

/-! ## Constants and texts of `main.go` -/

def main_bot : String := "main"

def liza_bot : String := "liza"

def katya_bot : String := "katya"

def stateFinish : String := "finish"

def getIntroText (lizaBotName : String) : String :=
  Sprintf
  ("\n" ++
  "<b>7 января 1852 года</b> в Санкт-Петербурге в помещении Екатерининского вокзала была наряжена <b>первая в России</b> общественная ёлка.\n" ++
  "\n" ++
  "После этого традиция наряжать ёлки для всех желающих распространилась по всей стране.\n" ++
  "\n" ++
  "После реконструкции в 2011 году большую новогоднюю ёлку стали устанавливать в <a href=\"https://maps.app.goo.gl/Py7phmbcyQGXZiKbA\">Новой Голландии</a>.\n" ++
  "\n" ++
  "По легенде в <a href=\"https://maps.app.goo.gl/N7fa6cPezFXHHTFy8\">Гимназии Петербургской культуры № 32</a> хранится <b>та самая звезда</b>, которая была зажжена на той первой ёлке, и которая дала начало новогодней традиции во всей стране.\n" ++
  "\n" ++
  "Каждый год с момента реконструкции Новой Голландии Гимназия участвует в торжественном зажжении новогодней ёлки и передает свою драгоценную звезду для украшения, как символ волшебства и преемственности традиций.\n" ++
  "\n" ++
  "Ученица 8-го класса Гимназии Лиза Волкова в этом году назначена ответственной за организацию торжественного в этом году. Она хотела, чтобы все прошло идеально.\n" ++
  "\n" ++
  "<b>Но звезда внезапно пропала!</b>\n" ++
  "\n" ++
  "Сможешь ли ты понять где она, кто её взял и как её вернуть?\n" ++
  "\n" ++
  "Напиши Лизе! Ей очень нужна твоя помощь. До праздника остаются считанные дни!\n" ++
  "\n" ++
  "%s\n")
  [lizaBotName]

def getHelperText : String :=
  "\n" ++
  "<i>Если что-то будет не понятно и не получаться, ты можешь задать свой вопрос здесь и я попробую тебе помочь.\n" ++
  "Но будет намного интереснее додуматься до решения самостоятельно.</i>\n"

def getFinalDecisionText : String :=
  "Короче, мы поговорили с директрисой и решили, что мы не должны забирать Звезду из больницы перед новым годом.\n" ++
  "\n" ++
  "Тем более, что у них там <b>все начали выздоравливать</b> после того, как она у них появилась.\n" ++
  "\n" ++
  "<b>Там она явно нужнее.</b>\n" ++
  "\n" ++
  "А для Новой Голландии мы найдем другую звезду.\n" ++
  "\n" ++
  "Спасибо тебе за помощь. И с Новым Годом!\n"

def getKatyaFinalReplica : String :=
  "Привет, ты не поверишь! Сейчас пришел мой доктор и сказал, что меня смогут выписать перед Новым Годом! Это настоящее новогоднее чудо! Может быть это звезда помогла!"

def getMainBotFinalText : String :=
  "\n" ++
  "Вот как иногда бывает, если очень сильно верить в чудо, оно может произойти.\n" ++
  "\n" ++
  "Сегодня ты не просто помог найти пропавшую звезду, но и стал свидетелем начала новой доброй традиции.\n" ++
  "\n" ++
  "<b>С наступающим Новым Годом!</b>\n"

def getShareLink (mainBotName : String) : String :=
  Sprintf
  ("\n" ++
  "Понравился квест?\n" ++
  "\n" ++
  "Поделись с другом ссылкой на этого бота, чтобы он тоже смог поиграть: %s\n")
  [mainBotName]

/-! ## The handlers -/

/-- The handler returned by `mainBotStartCommandHandler(lizaBotName)`. -/
def mainBotStartCommandHandler {σ : Type} (lizaBotName : String) : Handler σ :=
  fun chatID sender w =>
    let r1 := doSendPhoto sender chatID "./photos/main_bot_photo1.png" w
    let w1 := match r1.1 with
      | some err => slogError "unable to send photo:" err.Error r1.2
      | none => r1.2
    let r2 := doSendMessage sender chatID (getIntroText lizaBotName) w1
    match r2.1 with
    | some err => (some err, r2.2)
    | none =>
      let r3 := doSendMessage sender chatID getHelperText r2.2
      let w3 := match r3.1 with
        | some err => slogError "unable to send helper text:" err.Error r3.2
        | none => r3.2
      (none, w3)

/-- The handler returned by `mainBotRestartCommandHandler(lizaBotName)`. -/
def mainBotRestartCommandHandler {σ : Type} (lizaBotName : String) : Handler σ :=
  fun chatID sender w =>
    let r := doSendMessage sender chatID "Игра перезапущена" w
    mainBotStartCommandHandler lizaBotName chatID sender r.2

/-- The anonymous transition handler that `attachHandlers` registers for
`liza` on `finish`. -/
def lizaBotFinishHandler {σ : Type} : Handler σ :=
  fun chatID sender w =>
    let w1 := Sleep (10 * Second) w
    doSendMessage sender chatID getFinalDecisionText w1

/-- The anonymous command handler that `attachHandlers` registers for
`katya` on `sendStarPhoto`. -/
def sendStarPhotoHandler {σ : Type} : Handler σ :=
  fun chatID sender w => doSendPhoto sender chatID "photos/katya_zvezda_school.png" w

/-- The anonymous command handler that `attachHandlers` registers for
`katya` on `sendChristmasTreePhoto`. -/
def sendChristmasTreePhotoHandler {σ : Type} : Handler σ :=
  fun chatID sender w => doSendPhoto sender chatID "photos/katya_elka_noch.png" w

/-- The anonymous transition handler that `attachHandlers` registers for
`katya` on `finish`. -/
def katyaBotFinishHandler {σ : Type} : Handler σ :=
  fun chatID sender w =>
    let w1 := Sleep (20 * Second) w
    doSendMessage sender chatID getKatyaFinalReplica w1

/-! ## Configuration and registration -/

/-- The Go index expression `m[key]` on a `map[string]string`: the value
stored under `key`, the zero value `""` when the key is absent. -/
def mapIndex (m : List (String × String)) (key : String) : String :=
  (m.lookup key).getD ""

/-- Modelled from the spec: the persona record `quest.Bot` (the `quest`
package is not part of the sources), "map of placeholder name → display text,
map of command name → command handler, map of state name → transition
handler". The maps are association lists in which the first entry of a key is
the one found. -/
structure Bot (σ : Type) where
  Placeholders : List (String × String)
  CommandHandlers : List (String × Handler σ)
  TransitionHandlers : List (String × Handler σ)

/-- Modelled from the spec: `quest.Bot.AddCommandHandler`, which binds a
command name to a handler in the persona's command map. -/
def Bot.AddCommandHandler {σ : Type} (b : Bot σ) (name : String) (h : Handler σ) : Bot σ :=
  { b with CommandHandlers := (name, h) :: b.CommandHandlers }

/-- Modelled from the spec: `quest.Bot.AddTransitionHandler`, which binds a
state name to a handler in the persona's transition map. -/
def Bot.AddTransitionHandler {σ : Type} (b : Bot σ) (state : String) (h : Handler σ) : Bot σ :=
  { b with TransitionHandlers := (state, h) :: b.TransitionHandlers }

/-- Modelled from the spec: the part of `quest.Config` that `main.go` reads,
the map `Bots` from persona name to persona. The three personas that
`attachHandlers` indexes are taken to be present. -/
structure Config (σ : Type) where
  Bots : String → Bot σ

/-- The in-place change of the persona stored under `name`. -/
def Config.modify {σ : Type} (cfg : Config σ) (name : String) (f : Bot σ → Bot σ) : Config σ :=
  { Bots := fun n => if n = name then f (cfg.Bots n) else cfg.Bots n }

/-- The anonymous transition handler that `attachHandlers` registers for
`main` on `finish`. The closure holds `cfg` and indexes the placeholder map
when it runs. -/
def mainBotFinishHandler {σ : Type} (cfg : Config σ) : Handler σ :=
  fun chatID sender w =>
    let w1 := Sleep (10 * Second) w
    let r1 := doSendMessage sender chatID getMainBotFinalText w1
    let r2 := doSendMessage sender chatID
      (getShareLink (mapIndex (cfg.Bots main_bot).Placeholders "main_bot_name")) r1.2
    (none, r2.2)

/-- The function `attachHandlers(cfg)`: seven registrations, in source order.
It has no result: nothing in it checks a placeholder or reports an error. The
`finish` closure of `main` is given the configuration as it stands when the
closure is made; no registration writes a placeholder map. -/
def attachHandlers {σ : Type} (cfg : Config σ) : Config σ :=
  let c1 := cfg.modify main_bot (fun b => b.AddCommandHandler "start"
    (mainBotStartCommandHandler (mapIndex (cfg.Bots main_bot).Placeholders "liza_bot_name")))
  let c2 := c1.modify main_bot (fun b => b.AddCommandHandler "restart"
    (mainBotRestartCommandHandler (mapIndex (c1.Bots main_bot).Placeholders "liza_bot_name")))
  let c3 := c2.modify main_bot (fun b => b.AddTransitionHandler stateFinish
    (mainBotFinishHandler c2))
  let c4 := c3.modify liza_bot (fun b => b.AddTransitionHandler stateFinish
    lizaBotFinishHandler)
  let c5 := c4.modify katya_bot (fun b => b.AddCommandHandler "sendStarPhoto"
    sendStarPhotoHandler)
  let c6 := c5.modify katya_bot (fun b => b.AddCommandHandler "sendChristmasTreePhoto"
    sendChristmasTreePhotoHandler)
  c6.modify katya_bot (fun b => b.AddTransitionHandler stateFinish
    katyaBotFinishHandler)

/-! ## Start-up: `func main` -/

/-- An external call made by `main`, or a line it logs. -/
inductive Call where
  | LoadConfig
  | NewClient
  | ValidateAPIKey
  | botNewManager
  | attachHandlers
  | botManagerAddBots
  | telegramNewManager
  | tgManagerAddBots
  | NewGameEngine
  | engineRun
  | loggerError (msg : String) (err : String)
deriving DecidableEq, Repr

/-- What the collaborators of `main` answer: the loaded configuration and the
`error` result of each fallible call. -/
structure Env (σ : Type) where
  LoadConfig : Config σ
  NewClient : Option GoError
  ValidateAPIKey : Option GoError
  botManagerAddBots : Config σ → Option GoError
  tgManagerAddBots : Config σ → Option GoError
  NewGameEngine : Option GoError
  engineRun : Option GoError

/-- The function `main`: the exit code of the process (`os.Exit(1)` ends it
at once; a return from `main` is exit code 0) and the calls made, in order. -/
def main {σ : Type} (env : Env σ) : Nat × List Call :=
  let cfg := env.LoadConfig
  let t1 := [Call.LoadConfig, Call.NewClient]
  match env.NewClient with
  | some err =>
    (1, t1 ++ [Call.loggerError "failed to create GenerationConfig client" err.Error])
  | none =>
  let t2 := t1 ++ [Call.ValidateAPIKey]
  match env.ValidateAPIKey with
  | some err =>
    (1, t2 ++ [Call.loggerError "generationConfig API key validation failed" err.Error])
  | none =>
  let t3 := t2 ++ [Call.botNewManager, Call.attachHandlers]
  let cfg := attachHandlers cfg
  let t4 := t3 ++ [Call.botManagerAddBots]
  match env.botManagerAddBots cfg with
  | some err => (1, t4 ++ [Call.loggerError "failed to add bots" err.Error])
  | none =>
  let t5 := t4 ++ [Call.telegramNewManager, Call.tgManagerAddBots]
  match env.tgManagerAddBots cfg with
  | some err => (1, t5 ++ [Call.loggerError "failed to add bots" err.Error])
  | none =>
  let t6 := t5 ++ [Call.NewGameEngine]
  match env.NewGameEngine with
  | some err => (1, t6 ++ [Call.loggerError "Failed to initialize service" err.Error])
  | none =>
  let t7 := t6 ++ [Call.engineRun]
  match env.engineRun with
  | some err => (1, t7 ++ [Call.loggerError "GameEngine error" err.Error])
  | none => (0, t7)

/-! ## Observations on traces -/

/-- A world in which nothing has happened yet. -/
def World.fresh {σ : Type} (s : σ) : World σ :=
  { sender := s, trace := [] }

/-- Whether an effect is a send (text or photo). -/
def Effect.isSend : Effect → Bool
  | Effect.SendPhoto _ _ => true
  | Effect.SendMessage _ _ => true
  | _ => false

/-- The sends of a trace, in order. -/
def sends (t : List Effect) : List Effect :=
  t.filter Effect.isSend

/-- The chat a send is addressed to. -/
def Effect.chat? : Effect → Option Int
  | Effect.SendPhoto c _ => some c
  | Effect.SendMessage c _ => some c
  | _ => none

/-- The same effect with every send addressed to `c`. -/
def Effect.retarget (c : Int) : Effect → Effect
  | Effect.SendPhoto _ p => Effect.SendPhoto c p
  | Effect.SendMessage _ x => Effect.SendMessage c x
  | e => e

/-- The instants at which the sends of a trace begin, when the trace starts at
instant `now` and only `time.Sleep` lets time pass. -/
def sendInstants (now : Nat) : List Effect → List Nat
  | [] => []
  | Effect.Sleep d :: rest => sendInstants (now + d) rest
  | Effect.SendPhoto _ _ :: rest => now :: sendInstants now rest
  | Effect.SendMessage _ _ :: rest => now :: sendInstants now rest
  | Effect.slogError _ _ :: rest => sendInstants now rest

/-! ## Senders used as concrete inputs -/

/-- A sender whose every send succeeds. -/
def okSender : MessageSender Unit :=
  { SendMessage := fun s _ _ => (none, s)
    SendPhoto := fun s _ _ => (none, s) }

/-- A sender that answers its sends from a script: the state is the list of
outcomes still to give, and a send past the end of the script succeeds. -/
def scriptedSender : MessageSender (List (Option GoError)) :=
  { SendMessage := fun s _ _ => (s.head?.join, s.tail)
    SendPhoto := fun s _ _ => (s.head?.join, s.tail) }

/-! ## Registered handlers and fixtures -/

/-- The handler bound to a command of a persona, as the dispatcher finds it. -/
def commandHandler {σ : Type} (cfg : Config σ) (bot : String) (name : String) :
    Option (Handler σ) :=
  (cfg.Bots bot).CommandHandlers.lookup name

/-- The handler bound to a state of a persona, as the dispatcher finds it. -/
def transitionHandler {σ : Type} (cfg : Config σ) (bot : String) (state : String) :
    Option (Handler σ) :=
  (cfg.Bots bot).TransitionHandlers.lookup state

/-- The log line that a best-effort send leaves when it fails. -/
def logIfFailed (msg : String) : Option GoError → List Effect
  | some err => [Effect.slogError msg err.Error]
  | none => []

/-- The calls of a run of `main` without the log lines. -/
def steps (t : List Call) : List Call :=
  t.filter (fun c => match c with
    | Call.loggerError _ _ => false
    | _ => true)

/-- A configuration of personas without placeholders and without handlers. -/
def cfgNoPlaceholders : Config Unit :=
  { Bots := fun _ => { Placeholders := [], CommandHandlers := [], TransitionHandlers := [] } }

/-- A configuration without handlers, for scripted senders, whose main persona
stores both of the placeholders that `attachHandlers` reads. -/
def cfgWithNames : Config (List (Option GoError)) :=
  { Bots := fun n =>
      { Placeholders :=
          if n = main_bot then
            [("liza_bot_name", "@liza_volkova_bot"), ("main_bot_name", "@north_star_bot")]
          else []
        CommandHandlers := []
        TransitionHandlers := [] } }

/-- An environment in which everything that is called succeeds, over the
configuration without placeholders. -/
def envAllOk : Env Unit :=
  { LoadConfig := cfgNoPlaceholders
    NewClient := none
    ValidateAPIKey := none
    botManagerAddBots := fun _ => none
    tgManagerAddBots := fun _ => none
    NewGameEngine := none
    engineRun := none }

/-- What C10 says of one handler: every send of a run is addressed to the chat
the handler was invoked with, and for a sender that answers alike for the two
chats the run for the other chat is the same run with the sends addressed to
the other chat, with the same result. -/
def ChatLocal {σ : Type} (h : Handler σ) : Prop :=
  (∀ (c : Int) (S : MessageSender σ) (s : σ),
    ∀ e ∈ (h c S (World.fresh s)).2.trace, e.isSend = true → e.chat? = some c) ∧
  (∀ (c c' : Int) (S : MessageSender σ) (s : σ),
    (∀ s1 x, S.SendMessage s1 c' x = S.SendMessage s1 c x) →
    (∀ s1 p, S.SendPhoto s1 c' p = S.SendPhoto s1 c p) →
    (h c' S (World.fresh s)).2.trace =
      ((h c S (World.fresh s)).2.trace).map (Effect.retarget c') ∧
    (h c' S (World.fresh s)).1 = (h c S (World.fresh s)).1)

/-! ## Lemmas -/

/-- Every run of the start handler, written out: result, sender state and
trace in terms of the three calls to the sender. -/
theorem start_run {σ : Type} (n : String) (c : Int) (S : MessageSender σ) (w : World σ) :
    mainBotStartCommandHandler n c S w =
      ((S.SendMessage (S.SendPhoto w.sender c "./photos/main_bot_photo1.png").2 c
          (getIntroText n)).1,
       { sender :=
           match (S.SendMessage (S.SendPhoto w.sender c "./photos/main_bot_photo1.png").2 c
              (getIntroText n)).1 with
           | some _ => (S.SendMessage (S.SendPhoto w.sender c "./photos/main_bot_photo1.png").2 c
              (getIntroText n)).2
           | none => (S.SendMessage (S.SendMessage
              (S.SendPhoto w.sender c "./photos/main_bot_photo1.png").2 c
              (getIntroText n)).2 c getHelperText).2
         trace := w.trace ++ [Effect.SendPhoto c "./photos/main_bot_photo1.png"]
           ++ logIfFailed "unable to send photo:"
                (S.SendPhoto w.sender c "./photos/main_bot_photo1.png").1
           ++ [Effect.SendMessage c (getIntroText n)]
           ++ match (S.SendMessage (S.SendPhoto w.sender c "./photos/main_bot_photo1.png").2 c
                (getIntroText n)).1 with
              | some _ => []
              | none => Effect.SendMessage c getHelperText ::
                  logIfFailed "unable to send helper text:"
                    (S.SendMessage (S.SendMessage
                      (S.SendPhoto w.sender c "./photos/main_bot_photo1.png").2 c
                      (getIntroText n)).2 c getHelperText).1 }) := by
  unfold mainBotStartCommandHandler doSendPhoto doSendMessage slogError
  rcases hp : S.SendPhoto w.sender c "./photos/main_bot_photo1.png" with ⟨_ | ep, s1⟩ <;>
  rcases hi : S.SendMessage s1 c (getIntroText n) with ⟨_ | ei, s2⟩ <;>
  rcases hh : S.SendMessage s2 c getHelperText with ⟨_ | eh, s3⟩ <;>
  simp [hp, hi, hh, logIfFailed]

/-- The sends of a run of the start handler from a fresh world. -/
theorem start_sends {σ : Type} (n : String) (c : Int) (S : MessageSender σ) (s : σ) :
    sends (mainBotStartCommandHandler n c S (World.fresh s)).2.trace =
      [Effect.SendPhoto c "./photos/main_bot_photo1.png", Effect.SendMessage c (getIntroText n)]
      ++ match (S.SendMessage (S.SendPhoto s c "./photos/main_bot_photo1.png").2 c
            (getIntroText n)).1 with
         | some _ => []
         | none => [Effect.SendMessage c getHelperText] := by
  rw [start_run]
  simp only [World.fresh]
  generalize (S.SendMessage (S.SendMessage (S.SendPhoto s c "./photos/main_bot_photo1.png").2 c
    (getIntroText n)).2 c getHelperText).1 = oh
  generalize (S.SendMessage (S.SendPhoto s c "./photos/main_bot_photo1.png").2 c
    (getIntroText n)).1 = oi
  generalize (S.SendPhoto s c "./photos/main_bot_photo1.png").1 = op
  cases op <;> cases oi <;> cases oh <;> simp [sends, logIfFailed, Effect.isSend]

set_option maxRecDepth 100000 in
/-- The intro text is its fixed opening, the placeholder value, and a line
break. -/
theorem getIntroText_contains_name (n : String) : n.data <:+: (getIntroText n).data := by
  refine ⟨(getIntroText "").data.take 1166, ['\n'], ?_⟩
  rfl

/-- Indexing a map at a stored key gives the stored value. -/
theorem mapIndex_of_lookup (m : List (String × String)) (key v : String)
    (h : m.lookup key = some v) : mapIndex m key = v := by
  simp [mapIndex, h]

/-- The share-link text is its fixed opening, the argument, and a line break. -/
theorem getShareLink_data (x : String) :
    (getShareLink x).data =
      ("\n" ++ "Понравился квест?\n" ++ "\n" ++
        "Поделись с другом ссылкой на этого бота, чтобы он тоже смог поиграть: ").data
        ++ x.data ++ "\n".data :=
  rfl

/-- The share-link text and the final text differ, whatever the placeholder:
their second characters do. -/
theorem getShareLink_ne_final (x : String) : getShareLink x ≠ getMainBotFinalText := by
  intro h
  have h1 : (getShareLink x).data.get? 1 = getMainBotFinalText.data.get? 1 := by rw [h]
  have h2 : (getShareLink x).data.get? 1 = some 'П' := rfl
  have h3 : getMainBotFinalText.data.get? 1 = some 'В' := rfl
  rw [h2, h3] at h1
  exact absurd h1 (by decide)

theorem chatLocal_start {σ : Type} (n : String) :
    ChatLocal (mainBotStartCommandHandler n : Handler σ) := by
  constructor
  · intro c S s
    rw [start_run]
    simp only [World.fresh]
    generalize (S.SendMessage (S.SendMessage (S.SendPhoto s c "./photos/main_bot_photo1.png").2 c
      (getIntroText n)).2 c getHelperText).1 = oh
    generalize (S.SendMessage (S.SendPhoto s c "./photos/main_bot_photo1.png").2 c
      (getIntroText n)).1 = oi
    generalize (S.SendPhoto s c "./photos/main_bot_photo1.png").1 = op
    cases op <;> cases oi <;> cases oh <;> simp [logIfFailed, Effect.isSend, Effect.chat?]
  · intro c c' S s hM hP
    simp only [start_run, World.fresh, hM, hP]
    generalize (S.SendMessage (S.SendMessage (S.SendPhoto s c "./photos/main_bot_photo1.png").2 c
      (getIntroText n)).2 c getHelperText).1 = oh
    generalize (S.SendMessage (S.SendPhoto s c "./photos/main_bot_photo1.png").2 c
      (getIntroText n)).1 = oi
    generalize (S.SendPhoto s c "./photos/main_bot_photo1.png").1 = op
    cases op <;> cases oi <;> cases oh <;> simp [logIfFailed, Effect.retarget]

theorem chatLocal_restart {σ : Type} (n : String) :
    ChatLocal (mainBotRestartCommandHandler n : Handler σ) := by
  constructor
  · intro c S s
    unfold mainBotRestartCommandHandler
    rw [start_run]
    simp only [World.fresh, doSendMessage]
    generalize (S.SendMessage s c "Игра перезапущена").2 = s'
    generalize (S.SendMessage (S.SendMessage (S.SendPhoto s' c "./photos/main_bot_photo1.png").2 c
      (getIntroText n)).2 c getHelperText).1 = oh
    generalize (S.SendMessage (S.SendPhoto s' c "./photos/main_bot_photo1.png").2 c
      (getIntroText n)).1 = oi
    generalize (S.SendPhoto s' c "./photos/main_bot_photo1.png").1 = op
    cases op <;> cases oi <;> cases oh <;> simp [logIfFailed, Effect.isSend, Effect.chat?]
  · intro c c' S s hM hP
    unfold mainBotRestartCommandHandler
    simp only [start_run, World.fresh, doSendMessage, hM, hP]
    generalize (S.SendMessage s c "Игра перезапущена").2 = s'
    generalize (S.SendMessage (S.SendMessage (S.SendPhoto s' c "./photos/main_bot_photo1.png").2 c
      (getIntroText n)).2 c getHelperText).1 = oh
    generalize (S.SendMessage (S.SendPhoto s' c "./photos/main_bot_photo1.png").2 c
      (getIntroText n)).1 = oi
    generalize (S.SendPhoto s' c "./photos/main_bot_photo1.png").1 = op
    cases op <;> cases oi <;> cases oh <;> simp [logIfFailed, Effect.retarget]

theorem chatLocal_mainFinish {σ : Type} (cfg : Config σ) :
    ChatLocal (mainBotFinishHandler cfg) := by
  constructor
  · intro c S s
    simp [mainBotFinishHandler, doSendMessage, Sleep, World.fresh, Effect.isSend, Effect.chat?]
  · intro c c' S s hM hP
    simp [mainBotFinishHandler, doSendMessage, Sleep, World.fresh, Effect.retarget, hM]

theorem chatLocal_lizaFinish {σ : Type} : ChatLocal (lizaBotFinishHandler : Handler σ) := by
  constructor
  · intro c S s
    simp [lizaBotFinishHandler, doSendMessage, Sleep, World.fresh, Effect.isSend, Effect.chat?]
  · intro c c' S s hM hP
    simp [lizaBotFinishHandler, doSendMessage, Sleep, World.fresh, Effect.retarget, hM]

theorem chatLocal_katyaFinish {σ : Type} : ChatLocal (katyaBotFinishHandler : Handler σ) := by
  constructor
  · intro c S s
    simp [katyaBotFinishHandler, doSendMessage, Sleep, World.fresh, Effect.isSend, Effect.chat?]
  · intro c c' S s hM hP
    simp [katyaBotFinishHandler, doSendMessage, Sleep, World.fresh, Effect.retarget, hM]

theorem chatLocal_sendStarPhoto {σ : Type} : ChatLocal (sendStarPhotoHandler : Handler σ) := by
  constructor
  · intro c S s
    simp [sendStarPhotoHandler, doSendPhoto, World.fresh, Effect.isSend, Effect.chat?]
  · intro c c' S s hM hP
    simp [sendStarPhotoHandler, doSendPhoto, World.fresh, Effect.retarget, hP]

theorem chatLocal_sendChristmasTreePhoto {σ : Type} :
    ChatLocal (sendChristmasTreePhotoHandler : Handler σ) := by
  constructor
  · intro c S s
    simp [sendChristmasTreePhotoHandler, doSendPhoto, World.fresh, Effect.isSend, Effect.chat?]
  · intro c c' S s hM hP
    simp [sendChristmasTreePhotoHandler, doSendPhoto, World.fresh, Effect.retarget, hP]

/-- The handlers that `attachHandlers` leaves in a configuration that had none:
two commands and one transition for `main`, one transition for `liza`, two
commands and one transition for `katya`, nothing for any other name. -/
theorem attachHandlers_registered {σ : Type} (cfg : Config σ)
    (hempty : ∀ b, (cfg.Bots b).CommandHandlers = [] ∧ (cfg.Bots b).TransitionHandlers = [])
    (b name : String) (h : Handler σ)
    (hreg : (name, h) ∈ ((attachHandlers cfg).Bots b).CommandHandlers ++
      ((attachHandlers cfg).Bots b).TransitionHandlers) :
    (∃ n, h = mainBotStartCommandHandler n) ∨ (∃ n, h = mainBotRestartCommandHandler n) ∨
    (∃ c, h = mainBotFinishHandler c) ∨ h = lizaBotFinishHandler ∨
    h = sendStarPhotoHandler ∨ h = sendChristmasTreePhotoHandler ∨
    h = katyaBotFinishHandler := by
  simp only [attachHandlers, Config.modify, Bot.AddCommandHandler, Bot.AddTransitionHandler,
    main_bot, liza_bot, katya_bot] at hreg
  by_cases hm : b = "main"
  · subst hm
    simp [(hempty "main").1, (hempty "main").2] at hreg
    rcases hreg with ⟨-, rfl⟩ | ⟨-, rfl⟩ | ⟨-, rfl⟩
    · exact Or.inr (Or.inl ⟨_, rfl⟩)
    · exact Or.inl ⟨_, rfl⟩
    · exact Or.inr (Or.inr (Or.inl ⟨_, rfl⟩))
  · by_cases hl : b = "liza"
    · subst hl
      simp [(hempty "liza").1, (hempty "liza").2] at hreg
      rcases hreg with ⟨-, rfl⟩
      exact Or.inr (Or.inr (Or.inr (Or.inl rfl)))
    · by_cases hk : b = "katya"
      · subst hk
        simp [(hempty "katya").1, (hempty "katya").2] at hreg
        rcases hreg with ⟨-, rfl⟩ | ⟨-, rfl⟩ | ⟨-, rfl⟩
        · exact Or.inr (Or.inr (Or.inr (Or.inr (Or.inr (Or.inl rfl)))))
        · exact Or.inr (Or.inr (Or.inr (Or.inr (Or.inl rfl))))
        · exact Or.inr (Or.inr (Or.inr (Or.inr (Or.inr (Or.inr rfl)))))
      · simp [hm, hl, hk, (hempty b).1, (hempty b).2] at hreg

/-! ## The claims -/

/-- C1: for every chat, placeholder value and sender, the start handler of the
main persona attempts its sends in the order photo, intro text, helper text:
the photo and the intro text are always the first two sends, whatever the
photo send returned; the sends never leave that order; when the intro text
went out, the helper text follows and the handler returns nil whatever the
helper send returned; and the intro text contains the placeholder value. -/
theorem start_sends_photo_intro_helper {σ : Type} (chatID : Int) (lizaBotName : String)
    (S : MessageSender σ) (s : σ) :
    let r := mainBotStartCommandHandler lizaBotName chatID S (World.fresh s)
    let photo := Effect.SendPhoto chatID "./photos/main_bot_photo1.png"
    let intro := Effect.SendMessage chatID (getIntroText lizaBotName)
    let helper := Effect.SendMessage chatID getHelperText
    let introErr := (S.SendMessage (S.SendPhoto s chatID "./photos/main_bot_photo1.png").2
      chatID (getIntroText lizaBotName)).1
    (sends r.2.trace).take 2 = [photo, intro] ∧
    sends r.2.trace <+: [photo, intro, helper] ∧
    (introErr = none → sends r.2.trace = [photo, intro, helper] ∧ r.1 = none) ∧
    lizaBotName.data <:+: (getIntroText lizaBotName).data := by
  intro r photo intro helper introErr
  have hs := start_sends lizaBotName chatID S s
  have hr : r.1 = introErr := by
    simp only [r, introErr, start_run, World.fresh]
  refine ⟨?_, ?_, ?_, getIntroText_contains_name lizaBotName⟩
  · simp only [r, hs]; rfl
  · simp only [r, hs]
    cases (S.SendMessage (S.SendPhoto s chatID "./photos/main_bot_photo1.png").2
      chatID (getIntroText lizaBotName)).1
    · exact ⟨[], List.append_nil _⟩
    · exact ⟨[helper], rfl⟩
  · intro h
    refine ⟨?_, hr.trans h⟩
    simp only [r, hs]
    simp only [introErr] at h
    rw [h]
    rfl

/-- C1, at a concrete input: the photo send and the helper send both fail, the
intro send succeeds. -/
theorem start_sends_photo_intro_helper_witness :
    sends (mainBotStartCommandHandler "@liza" 7 scriptedSender
        (World.fresh [some ⟨"no photo"⟩, none, some ⟨"no helper"⟩])).2.trace =
      [Effect.SendPhoto 7 "./photos/main_bot_photo1.png",
       Effect.SendMessage 7 (getIntroText "@liza"),
       Effect.SendMessage 7 getHelperText] ∧
    (mainBotStartCommandHandler "@liza" 7 scriptedSender
        (World.fresh [some ⟨"no photo"⟩, none, some ⟨"no helper"⟩])).1 = none :=
  (start_sends_photo_intro_helper 7 "@liza" scriptedSender
    [some ⟨"no photo"⟩, none, some ⟨"no helper"⟩]).2.2.1 rfl

/-- C2: in the start handler of the main persona the intro text is a critical
send. If it fails with error `e`, the handler returns `e`, the intro send is
the last thing the handler does (the sender is not called again, so the helper
text is never attempted); and the handler returns an error exactly when the
intro send fails. -/
theorem start_intro_is_critical {σ : Type} (chatID : Int) (lizaBotName : String)
    (S : MessageSender σ) (s : σ) :
    let r := mainBotStartCommandHandler lizaBotName chatID S (World.fresh s)
    let introCall := S.SendMessage (S.SendPhoto s chatID "./photos/main_bot_photo1.png").2
      chatID (getIntroText lizaBotName)
    (∀ e, introCall.1 = some e →
      r.1 = some e ∧
      r.2.trace.getLast? = some (Effect.SendMessage chatID (getIntroText lizaBotName)) ∧
      sends r.2.trace = [Effect.SendPhoto chatID "./photos/main_bot_photo1.png",
        Effect.SendMessage chatID (getIntroText lizaBotName)] ∧
      r.2.sender = introCall.2) ∧
    (r.1 ≠ none ↔ introCall.1 ≠ none) := by
  intro r introCall
  have hs := start_sends lizaBotName chatID S s
  have hr : r = _ := start_run lizaBotName chatID S (World.fresh s)
  refine ⟨?_, ?_⟩
  · intro e he
    simp only [introCall] at he
    simp only [World.fresh] at hr
    refine ⟨?_, ?_, ?_, ?_⟩
    · rw [hr]; exact he
    · rw [hr]
      simp only [he]
      cases (S.SendPhoto s chatID "./photos/main_bot_photo1.png").1 <;> simp [logIfFailed]
    · simp only [r, hs, he]; rfl
    · rw [hr]; simp [he, introCall]
  · rw [hr]
    exact Iff.rfl

/-- C2, at a concrete input: the photo goes out and the intro send fails. -/
theorem start_intro_is_critical_witness :
    (mainBotStartCommandHandler "@liza" 7 scriptedSender
        (World.fresh [none, some ⟨"blocked"⟩, none])).1 = some ⟨"blocked"⟩ ∧
    (mainBotStartCommandHandler "@liza" 7 scriptedSender
        (World.fresh [none, some ⟨"blocked"⟩, none])).2.sender = [none] :=
  have h := (start_intro_is_critical 7 "@liza" scriptedSender
    [none, some ⟨"blocked"⟩, none]).1 ⟨"blocked"⟩ rfl
  ⟨h.1, h.2.2.2⟩

/-- C3: for a sender whose send outcomes do not depend on what was sent
before, the restart handler of the main persona performs the acknowledgement
send and then exactly what the start handler performs for the same chat and
placeholder value (the same sends and the same log lines, in the same order),
and it returns what the start handler returns, whatever the acknowledgement
send returned. -/
theorem restart_is_ack_then_start {σ : Type} (chatID : Int) (lizaBotName : String)
    (S : MessageSender σ) (s : σ)
    (hText : ∀ s1 s2 c x, (S.SendMessage s1 c x).1 = (S.SendMessage s2 c x).1)
    (hPhoto : ∀ s1 s2 c p, (S.SendPhoto s1 c p).1 = (S.SendPhoto s2 c p).1) :
    (mainBotRestartCommandHandler lizaBotName chatID S (World.fresh s)).2.trace =
      Effect.SendMessage chatID "Игра перезапущена" ::
        (mainBotStartCommandHandler lizaBotName chatID S (World.fresh s)).2.trace ∧
    sends (mainBotRestartCommandHandler lizaBotName chatID S (World.fresh s)).2.trace =
      Effect.SendMessage chatID "Игра перезапущена" ::
        sends (mainBotStartCommandHandler lizaBotName chatID S (World.fresh s)).2.trace ∧
    (mainBotRestartCommandHandler lizaBotName chatID S (World.fresh s)).1 =
      (mainBotStartCommandHandler lizaBotName chatID S (World.fresh s)).1 := by
  have ht : (mainBotRestartCommandHandler lizaBotName chatID S (World.fresh s)).2.trace =
      Effect.SendMessage chatID "Игра перезапущена" ::
        (mainBotStartCommandHandler lizaBotName chatID S (World.fresh s)).2.trace := by
    unfold mainBotRestartCommandHandler
    simp only [start_run, doSendMessage, World.fresh, List.nil_append, List.append_assoc,
      List.cons_append]
    rw [hPhoto (S.SendMessage s chatID "Игра перезапущена").2 s,
      hText (S.SendPhoto (S.SendMessage s chatID "Игра перезапущена").2 chatID
        "./photos/main_bot_photo1.png").2 (S.SendPhoto s chatID "./photos/main_bot_photo1.png").2,
      hText (S.SendMessage (S.SendPhoto (S.SendMessage s chatID "Игра перезапущена").2 chatID
        "./photos/main_bot_photo1.png").2 chatID (getIntroText lizaBotName)).2
        (S.SendMessage (S.SendPhoto s chatID "./photos/main_bot_photo1.png").2 chatID
          (getIntroText lizaBotName)).2 chatID getHelperText]
  refine ⟨ht, ?_, ?_⟩
  · rw [ht]
    simp [sends, Effect.isSend]
  · unfold mainBotRestartCommandHandler
    simp only [start_run, doSendMessage, World.fresh]
    exact hText _ _ _ _

/-- C3, at a concrete input: a sender that refuses every text and accepts
every photo, whatever its state. -/
theorem restart_is_ack_then_start_witness :
    (mainBotRestartCommandHandler "@liza" 7
        (⟨fun s _ _ => (some ⟨"down"⟩, s + 1), fun s _ _ => (none, s + 1)⟩ : MessageSender Nat)
        (World.fresh 0)).2.trace =
      Effect.SendMessage 7 "Игра перезапущена" ::
        (mainBotStartCommandHandler "@liza" 7
          (⟨fun s _ _ => (some ⟨"down"⟩, s + 1), fun s _ _ => (none, s + 1)⟩ : MessageSender Nat)
          (World.fresh 0)).2.trace ∧
    (mainBotRestartCommandHandler "@liza" 7
        (⟨fun s _ _ => (some ⟨"down"⟩, s + 1), fun s _ _ => (none, s + 1)⟩ : MessageSender Nat)
        (World.fresh 0)).1 =
      (mainBotStartCommandHandler "@liza" 7
        (⟨fun s _ _ => (some ⟨"down"⟩, s + 1), fun s _ _ => (none, s + 1)⟩ : MessageSender Nat)
        (World.fresh 0)).1 :=
  have h := restart_is_ack_then_start 7 "@liza"
    (⟨fun s _ _ => (some ⟨"down"⟩, s + 1), fun s _ _ => (none, s + 1)⟩ : MessageSender Nat) 0
    (fun _ _ _ _ => rfl) (fun _ _ _ _ => rfl)
  ⟨h.1, h.2.2⟩

/-- C4: the handler that `attachHandlers` binds to `finish` of the main persona
sends, for every chat and whatever each send returns, first
`getMainBotFinalText()` and then the share-link text built from the
`main_bot_name` placeholder: these two sends, each once, in that order, after
the delay; the second send is made also when the first fails; and the handler
returns nil. The share link is built from the stored value: when the main
persona's placeholder map holds `v` under `main_bot_name`, the second text is
the fixed opening of the share link, then `v`, then a line break, so it
contains `v`. -/
theorem main_finish_sends_final_then_share_link {σ : Type} (cfg : Config σ) :
    ∃ h, transitionHandler (attachHandlers cfg) main_bot stateFinish = some h ∧
      ∀ (chatID : Int) (S : MessageSender σ) (s : σ),
        (h chatID S (World.fresh s)).1 = none ∧
        (h chatID S (World.fresh s)).2.trace =
          [Effect.Sleep (10 * Second),
           Effect.SendMessage chatID getMainBotFinalText,
           Effect.SendMessage chatID
             (getShareLink (mapIndex (cfg.Bots main_bot).Placeholders "main_bot_name"))] ∧
        sends (h chatID S (World.fresh s)).2.trace =
          [Effect.SendMessage chatID getMainBotFinalText,
           Effect.SendMessage chatID
             (getShareLink (mapIndex (cfg.Bots main_bot).Placeholders "main_bot_name"))] ∧
        (sends (h chatID S (World.fresh s)).2.trace).count
          (Effect.SendMessage chatID getMainBotFinalText) = 1 ∧
        (sends (h chatID S (World.fresh s)).2.trace).count
          (Effect.SendMessage chatID
            (getShareLink (mapIndex (cfg.Bots main_bot).Placeholders "main_bot_name"))) = 1 ∧
        (h chatID S (World.fresh s)).2.sender =
          (S.SendMessage (S.SendMessage s chatID getMainBotFinalText).2 chatID
            (getShareLink (mapIndex (cfg.Bots main_bot).Placeholders "main_bot_name"))).2 ∧
        (∀ v, (cfg.Bots main_bot).Placeholders.lookup "main_bot_name" = some v →
          ∃ text,
            sends (h chatID S (World.fresh s)).2.trace =
              [Effect.SendMessage chatID getMainBotFinalText,
               Effect.SendMessage chatID text] ∧
            text.data =
              ("\n" ++ "Понравился квест?\n" ++ "\n" ++
                "Поделись с другом ссылкой на этого бота, чтобы он тоже смог поиграть: ").data
                ++ v.data ++ "\n".data ∧
            v.data <:+: text.data) := by
  refine ⟨_, rfl, ?_⟩
  intro chatID S s
  have hne := getShareLink_ne_final (mapIndex (cfg.Bots main_bot).Placeholders "main_bot_name")
  refine ⟨rfl, rfl, rfl, ?_, ?_, rfl, ?_⟩
  · show List.count (Effect.SendMessage chatID getMainBotFinalText)
      [Effect.SendMessage chatID getMainBotFinalText,
       Effect.SendMessage chatID
         (getShareLink (mapIndex (cfg.Bots main_bot).Placeholders "main_bot_name"))] = 1
    simp [List.count_cons, hne]
  · show List.count (Effect.SendMessage chatID
        (getShareLink (mapIndex (cfg.Bots main_bot).Placeholders "main_bot_name")))
      [Effect.SendMessage chatID getMainBotFinalText,
       Effect.SendMessage chatID
         (getShareLink (mapIndex (cfg.Bots main_bot).Placeholders "main_bot_name"))] = 1
    simp [List.count_cons, hne.symm]
  · intro v hv
    have hm := mapIndex_of_lookup _ _ _ hv
    refine ⟨getShareLink (mapIndex (cfg.Bots main_bot).Placeholders "main_bot_name"),
      rfl, ?_, ?_⟩
    · rw [hm]
      exact getShareLink_data v
    · rw [hm]
      exact ⟨_, _, (getShareLink_data v).symm⟩

/-- C4, at a concrete input: the main persona stores `@north_star_bot` under
`main_bot_name`, the first send of the handler fails and the second is still
made, with a text that contains `@north_star_bot`. -/
theorem main_finish_sends_final_then_share_link_witness :
    ∃ h, transitionHandler (attachHandlers cfgWithNames) main_bot stateFinish = some h ∧
      (h 7 scriptedSender (World.fresh [some ⟨"blocked"⟩, none])).1 = none ∧
      ∃ text,
        sends (h 7 scriptedSender (World.fresh [some ⟨"blocked"⟩, none])).2.trace =
          [Effect.SendMessage 7 getMainBotFinalText, Effect.SendMessage 7 text] ∧
        text.data =
          ("\n" ++ "Понравился квест?\n" ++ "\n" ++
            "Поделись с другом ссылкой на этого бота, чтобы он тоже смог поиграть: ").data
            ++ "@north_star_bot".data ++ "\n".data ∧
        "@north_star_bot".data <:+: text.data :=
  match main_finish_sends_final_then_share_link cfgWithNames with
  | ⟨h, hreg, hall⟩ =>
    ⟨h, hreg, (hall 7 scriptedSender [some ⟨"blocked"⟩, none]).1,
      (hall 7 scriptedSender [some ⟨"blocked"⟩, none]).2.2.2.2.2.2 "@north_star_bot" rfl⟩

/-- C5: start-up is fail-fast. Whichever initialization step is the first to
fail (creating the language-model client, validating its key,
`botManager.AddBots`, the telegram manager's `AddBots`, `NewGameEngine`), the
process exits with code 1 and that step is the last call made: no later step
runs and `engine.Run` is never invoked; when the key validation fails the
telegram manager is never created. When every step succeeds and `engine.Run`
returns nil, every step has run in source order and the exit code is 0. -/
theorem main_is_fail_fast {σ : Type} (env : Env σ) :
    (env.NewClient ≠ none →
      (main env).1 = 1 ∧ steps (main env).2 = [Call.LoadConfig, Call.NewClient]) ∧
    (env.NewClient = none → env.ValidateAPIKey ≠ none →
      (main env).1 = 1 ∧
      steps (main env).2 = [Call.LoadConfig, Call.NewClient, Call.ValidateAPIKey] ∧
      Call.telegramNewManager ∉ (main env).2) ∧
    (env.NewClient = none → env.ValidateAPIKey = none →
      env.botManagerAddBots (attachHandlers env.LoadConfig) ≠ none →
      (main env).1 = 1 ∧
      steps (main env).2 = [Call.LoadConfig, Call.NewClient, Call.ValidateAPIKey,
        Call.botNewManager, Call.attachHandlers, Call.botManagerAddBots]) ∧
    (env.NewClient = none → env.ValidateAPIKey = none →
      env.botManagerAddBots (attachHandlers env.LoadConfig) = none →
      env.tgManagerAddBots (attachHandlers env.LoadConfig) ≠ none →
      (main env).1 = 1 ∧
      steps (main env).2 = [Call.LoadConfig, Call.NewClient, Call.ValidateAPIKey,
        Call.botNewManager, Call.attachHandlers, Call.botManagerAddBots,
        Call.telegramNewManager, Call.tgManagerAddBots]) ∧
    (env.NewClient = none → env.ValidateAPIKey = none →
      env.botManagerAddBots (attachHandlers env.LoadConfig) = none →
      env.tgManagerAddBots (attachHandlers env.LoadConfig) = none →
      env.NewGameEngine ≠ none →
      (main env).1 = 1 ∧
      steps (main env).2 = [Call.LoadConfig, Call.NewClient, Call.ValidateAPIKey,
        Call.botNewManager, Call.attachHandlers, Call.botManagerAddBots,
        Call.telegramNewManager, Call.tgManagerAddBots, Call.NewGameEngine]) ∧
    ((env.NewClient ≠ none ∨ env.ValidateAPIKey ≠ none ∨
        env.botManagerAddBots (attachHandlers env.LoadConfig) ≠ none ∨
        env.tgManagerAddBots (attachHandlers env.LoadConfig) ≠ none ∨
        env.NewGameEngine ≠ none) →
      (main env).1 = 1 ∧ Call.engineRun ∉ (main env).2) ∧
    (env.NewClient = none → env.ValidateAPIKey = none →
      env.botManagerAddBots (attachHandlers env.LoadConfig) = none →
      env.tgManagerAddBots (attachHandlers env.LoadConfig) = none →
      env.NewGameEngine = none → env.engineRun = none →
      (main env).1 = 0 ∧
      (main env).2 = [Call.LoadConfig, Call.NewClient, Call.ValidateAPIKey,
        Call.botNewManager, Call.attachHandlers, Call.botManagerAddBots,
        Call.telegramNewManager, Call.tgManagerAddBots, Call.NewGameEngine,
        Call.engineRun]) := by
  unfold main
  rcases h1 : env.NewClient with _ | e1
  · rcases h2 : env.ValidateAPIKey with _ | e2
    · rcases h3 : env.botManagerAddBots (attachHandlers env.LoadConfig) with _ | e3
      · rcases h4 : env.tgManagerAddBots (attachHandlers env.LoadConfig) with _ | e4
        · rcases h5 : env.NewGameEngine with _ | e5
          · rcases h6 : env.engineRun with _ | e6 <;> simp [steps, h3, h4]
          · simp [steps, h3, h4]
        · simp [steps, h3, h4]
      · simp [steps, h3]
    · simp [steps]
  · simp [steps]

/-- C5, at concrete inputs: a rejected key ends the process with code 1 before
the telegram manager exists, and a start-up in which nothing fails ends with
code 0. -/
theorem main_is_fail_fast_witness :
    ((main { envAllOk with ValidateAPIKey := some ⟨"API key not valid"⟩ }).1 = 1 ∧
      steps (main { envAllOk with ValidateAPIKey := some ⟨"API key not valid"⟩ }).2 =
        [Call.LoadConfig, Call.NewClient, Call.ValidateAPIKey] ∧
      Call.telegramNewManager ∉
        (main { envAllOk with ValidateAPIKey := some ⟨"API key not valid"⟩ }).2) ∧
    (main envAllOk).1 = 0 :=
  ⟨(main_is_fail_fast { envAllOk with ValidateAPIKey := some ⟨"API key not valid"⟩ }).2.1
      rfl (by simp),
   ((main_is_fail_fast envAllOk).2.2.2.2.2.2 rfl rfl rfl rfl rfl rfl).1⟩

/-- C6: the handler bound to `finish` of `liza` waits 10 s and only then makes
its single send, the text `getFinalDecisionText()`; the handler bound to
`finish` of `katya` waits 20 s and only then makes its single send, the text
`getKatyaFinalReplica()`; each returns what its send returned, and the second
delay is strictly longer than the first. -/
theorem liza_katya_finish_delay_then_one_send {σ : Type} (cfg : Config σ) :
    (∃ h, transitionHandler (attachHandlers cfg) liza_bot stateFinish = some h ∧
      ∀ (chatID : Int) (S : MessageSender σ) (s : σ),
        (h chatID S (World.fresh s)).2.trace =
          [Effect.Sleep (10 * Second), Effect.SendMessage chatID getFinalDecisionText] ∧
        (h chatID S (World.fresh s)).1 = (S.SendMessage s chatID getFinalDecisionText).1 ∧
        (h chatID S (World.fresh s)).2.sender =
          (S.SendMessage s chatID getFinalDecisionText).2) ∧
    (∃ h, transitionHandler (attachHandlers cfg) katya_bot stateFinish = some h ∧
      ∀ (chatID : Int) (S : MessageSender σ) (s : σ),
        (h chatID S (World.fresh s)).2.trace =
          [Effect.Sleep (20 * Second), Effect.SendMessage chatID getKatyaFinalReplica] ∧
        (h chatID S (World.fresh s)).1 = (S.SendMessage s chatID getKatyaFinalReplica).1 ∧
        (h chatID S (World.fresh s)).2.sender =
          (S.SendMessage s chatID getKatyaFinalReplica).2) ∧
    10 * Second < 20 * Second := by
  refine ⟨⟨_, rfl, fun _ _ _ => ⟨rfl, rfl, rfl⟩⟩, ⟨_, rfl, fun _ _ _ => ⟨rfl, rfl, rfl⟩⟩, ?_⟩
  decide

/-- C7: each photo command handler of `katya` is one call of `SendPhoto` with
its file for the chat it was invoked with, and nothing else: the trace is that
single photo send (no text send, no log line, no delay), the result is what
the send returned, and the sender is left as that one call left it, whether
the send failed or not. -/
theorem katya_photo_handlers_send_one_photo {σ : Type} (cfg : Config σ) :
    (∃ h, commandHandler (attachHandlers cfg) katya_bot "sendStarPhoto" = some h ∧
      ∀ (chatID : Int) (S : MessageSender σ) (s : σ),
        (h chatID S (World.fresh s)).2.trace =
          [Effect.SendPhoto chatID "photos/katya_zvezda_school.png"] ∧
        (h chatID S (World.fresh s)).1 =
          (S.SendPhoto s chatID "photos/katya_zvezda_school.png").1 ∧
        (h chatID S (World.fresh s)).2.sender =
          (S.SendPhoto s chatID "photos/katya_zvezda_school.png").2) ∧
    (∃ h, commandHandler (attachHandlers cfg) katya_bot "sendChristmasTreePhoto" = some h ∧
      ∀ (chatID : Int) (S : MessageSender σ) (s : σ),
        (h chatID S (World.fresh s)).2.trace =
          [Effect.SendPhoto chatID "photos/katya_elka_noch.png"] ∧
        (h chatID S (World.fresh s)).1 =
          (S.SendPhoto s chatID "photos/katya_elka_noch.png").1 ∧
        (h chatID S (World.fresh s)).2.sender =
          (S.SendPhoto s chatID "photos/katya_elka_noch.png").2) := by
  exact ⟨⟨_, rfl, fun _ _ _ => ⟨rfl, rfl, rfl⟩⟩, ⟨_, rfl, fun _ _ _ => ⟨rfl, rfl, rfl⟩⟩⟩

/-- C8, refuted as stated: the finish handler of the main persona starts at
instant 0 and shutdown is signalled at 5 s, inside its 10 s delay; both of its
sends are still made, at 10 s, after shutdown has begun. -/
theorem finish_sends_after_shutdown_counterexample :
    0 ≤ 5 * Second ∧ 5 * Second < 0 + 10 * Second ∧
    (transitionHandler (attachHandlers cfgNoPlaceholders) main_bot stateFinish).map
        (fun h => sendInstants 0 (h 1 okSender (World.fresh ())).2.trace) =
      some [10 * Second, 10 * Second] ∧
    ¬ (∀ h, transitionHandler (attachHandlers cfgNoPlaceholders) main_bot stateFinish = some h →
        ∀ i ∈ sendInstants 0 (h 1 okSender (World.fresh ())).2.trace, i ≤ 5 * Second) := by
  refine ⟨by decide, by decide, rfl, ?_⟩
  intro hall
  have h10 := hall _ rfl (10 * Second) (List.mem_cons_self _ _)
  exact absurd h10 (by decide)

/-- C8, amended: the finish handlers do not observe shutdown. Their delay is a
`time.Sleep` that nothing interrupts, so for every start instant `t0` the two
sends of the main persona's handler and the single send of `liza`'s handler
begin at `t0 + 10 s` and the single send of `katya`'s handler begins at
`t0 + 20 s`; whatever instant `t` inside the delay shutdown is signalled at,
every scripted send is still made, after `t`. -/
theorem finish_handlers_sleep_through_shutdown {σ : Type} (cfg : Config σ) (chatID : Int)
    (S : MessageSender σ) (s : σ) (t0 t : Nat) :
    (∃ h, transitionHandler (attachHandlers cfg) main_bot stateFinish = some h ∧
      sendInstants t0 (h chatID S (World.fresh s)).2.trace =
        [t0 + 10 * Second, t0 + 10 * Second] ∧
      (t < t0 + 10 * Second →
        ∀ i ∈ sendInstants t0 (h chatID S (World.fresh s)).2.trace, t < i)) ∧
    (∃ h, transitionHandler (attachHandlers cfg) liza_bot stateFinish = some h ∧
      sendInstants t0 (h chatID S (World.fresh s)).2.trace = [t0 + 10 * Second] ∧
      (t < t0 + 10 * Second →
        ∀ i ∈ sendInstants t0 (h chatID S (World.fresh s)).2.trace, t < i)) ∧
    (∃ h, transitionHandler (attachHandlers cfg) katya_bot stateFinish = some h ∧
      sendInstants t0 (h chatID S (World.fresh s)).2.trace = [t0 + 20 * Second] ∧
      (t < t0 + 20 * Second →
        ∀ i ∈ sendInstants t0 (h chatID S (World.fresh s)).2.trace, t < i)) := by
  refine ⟨⟨_, rfl, rfl, ?_⟩, ⟨_, rfl, rfl, ?_⟩, ⟨_, rfl, rfl, ?_⟩⟩
  · intro ht i hi
    have hi2 : i ∈ [t0 + 10 * Second, t0 + 10 * Second] := hi
    simp only [List.mem_cons, List.mem_singleton, List.not_mem_nil, or_false, or_self] at hi2
    omega
  · intro ht i hi
    have hi2 : i ∈ [t0 + 10 * Second] := hi
    simp only [List.mem_singleton] at hi2
    omega
  · intro ht i hi
    have hi2 : i ∈ [t0 + 20 * Second] := hi
    simp only [List.mem_singleton] at hi2
    omega

/-- C8 amended, at a concrete input: `katya`'s finish handler starts at 3 s,
shutdown is signalled at 4 s, and the closing line is sent at 23 s. -/
theorem finish_handlers_sleep_through_shutdown_witness :
    ∃ h, transitionHandler (attachHandlers cfgNoPlaceholders) katya_bot stateFinish = some h ∧
      sendInstants (3 * Second) (h 1 okSender (World.fresh ())).2.trace =
        [3 * Second + 20 * Second] ∧
      ∀ i ∈ sendInstants (3 * Second) (h 1 okSender (World.fresh ())).2.trace,
        4 * Second < i :=
  match (finish_handlers_sleep_through_shutdown cfgNoPlaceholders 1 okSender ()
      (3 * Second) (4 * Second)).2.2 with
  | ⟨h, hreg, hinst, hafter⟩ => ⟨h, hreg, hinst, hafter (by decide)⟩

/-- C9, refuted as stated: in a configuration whose main persona has neither
`liza_bot_name` nor `main_bot_name`, `attachHandlers` completes and binds a
`start` handler that sends the intro text built from the missing value (the
empty string) and a `finish` handler that sends the share link built from the
missing value. -/
theorem attachHandlers_missing_placeholder_counterexample :
    (cfgNoPlaceholders.Bots main_bot).Placeholders.lookup "liza_bot_name" = none ∧
    (cfgNoPlaceholders.Bots main_bot).Placeholders.lookup "main_bot_name" = none ∧
    (commandHandler (attachHandlers cfgNoPlaceholders) main_bot "start").map
        (fun h => sends (h 1 okSender (World.fresh ())).2.trace) =
      some [Effect.SendPhoto 1 "./photos/main_bot_photo1.png",
            Effect.SendMessage 1 (getIntroText ""),
            Effect.SendMessage 1 getHelperText] ∧
    (transitionHandler (attachHandlers cfgNoPlaceholders) main_bot stateFinish).map
        (fun h => sends (h 1 okSender (World.fresh ())).2.trace) =
      some [Effect.SendMessage 1 getMainBotFinalText,
            Effect.SendMessage 1 (getShareLink "")] :=
  ⟨rfl, rfl, rfl, rfl⟩

/-- C9, amended: `attachHandlers` validates nothing and cannot fail. For every
configuration it binds `start` and `restart` of the main persona to the
handlers built from `Placeholders["liza_bot_name"]` and `finish` to the handler
that reads `Placeholders["main_bot_name"]`, and an absent key reads as the empty
string: with `liza_bot_name` absent the `start` and `restart` handlers are those
built from `""`, with `main_bot_name` absent the share link is built from `""`. -/
theorem attachHandlers_reads_absent_placeholder_as_empty {σ : Type} (cfg : Config σ) :
    commandHandler (attachHandlers cfg) main_bot "start" =
      some (mainBotStartCommandHandler
        (mapIndex (cfg.Bots main_bot).Placeholders "liza_bot_name")) ∧
    commandHandler (attachHandlers cfg) main_bot "restart" =
      some (mainBotRestartCommandHandler
        (mapIndex (cfg.Bots main_bot).Placeholders "liza_bot_name")) ∧
    (∃ h, transitionHandler (attachHandlers cfg) main_bot stateFinish = some h ∧
      ∀ (chatID : Int) (S : MessageSender σ) (s : σ),
        sends (h chatID S (World.fresh s)).2.trace =
          [Effect.SendMessage chatID getMainBotFinalText,
           Effect.SendMessage chatID
             (getShareLink (mapIndex (cfg.Bots main_bot).Placeholders "main_bot_name"))]) ∧
    ((cfg.Bots main_bot).Placeholders.lookup "liza_bot_name" = none →
      commandHandler (attachHandlers cfg) main_bot "start" =
        some (mainBotStartCommandHandler "") ∧
      commandHandler (attachHandlers cfg) main_bot "restart" =
        some (mainBotRestartCommandHandler "")) ∧
    ((cfg.Bots main_bot).Placeholders.lookup "main_bot_name" = none →
      mapIndex (cfg.Bots main_bot).Placeholders "main_bot_name" = "") := by
  refine ⟨rfl, rfl, ⟨_, rfl, fun _ _ _ => rfl⟩, ?_, ?_⟩
  · intro h
    have h0 : mapIndex (cfg.Bots main_bot).Placeholders "liza_bot_name" = "" := by
      simp [mapIndex, h]
    rw [← h0]
    exact ⟨rfl, rfl⟩
  · intro h
    simp [mapIndex, h]

/-- C9 amended, at a concrete input: the configuration without placeholders. -/
theorem attachHandlers_reads_absent_placeholder_as_empty_witness :
    (commandHandler (attachHandlers cfgNoPlaceholders) main_bot "start" =
        some (mainBotStartCommandHandler "") ∧
      commandHandler (attachHandlers cfgNoPlaceholders) main_bot "restart" =
        some (mainBotRestartCommandHandler "")) ∧
    mapIndex (cfgNoPlaceholders.Bots main_bot).Placeholders "main_bot_name" = "" :=
  ⟨(attachHandlers_reads_absent_placeholder_as_empty cfgNoPlaceholders).2.2.2.1 rfl,
   (attachHandlers_reads_absent_placeholder_as_empty cfgNoPlaceholders).2.2.2.2 rfl⟩

/-- C10: every handler that `attachHandlers` binds (in a configuration that
had no handlers: `start`, `restart`, the two photo commands and the three
`finish` handlers) addresses each of its sends to the chat it was invoked
with; and run for another chat against a sender that answers alike for the two
chats, it performs the same effects with the same contents in the same order,
only addressed to the other chat, and returns the same result. -/
theorem registered_handlers_are_chat_local {σ : Type} (cfg : Config σ)
    (hempty : ∀ b, (cfg.Bots b).CommandHandlers = [] ∧ (cfg.Bots b).TransitionHandlers = [])
    (b name : String) (h : Handler σ)
    (hreg : (name, h) ∈ ((attachHandlers cfg).Bots b).CommandHandlers ++
      ((attachHandlers cfg).Bots b).TransitionHandlers) :
    (∀ (c : Int) (S : MessageSender σ) (s : σ),
      ∀ e ∈ (h c S (World.fresh s)).2.trace, e.isSend = true → e.chat? = some c) ∧
    (∀ (c c' : Int) (S : MessageSender σ) (s : σ),
      (∀ s1 x, S.SendMessage s1 c' x = S.SendMessage s1 c x) →
      (∀ s1 p, S.SendPhoto s1 c' p = S.SendPhoto s1 c p) →
      (h c' S (World.fresh s)).2.trace =
        ((h c S (World.fresh s)).2.trace).map (Effect.retarget c') ∧
      (h c' S (World.fresh s)).1 = (h c S (World.fresh s)).1) := by
  rcases attachHandlers_registered cfg hempty b name h hreg with
    ⟨n, rfl⟩ | ⟨n, rfl⟩ | ⟨c, rfl⟩ | rfl | rfl | rfl | rfl
  · exact chatLocal_start n
  · exact chatLocal_restart n
  · exact chatLocal_mainFinish c
  · exact chatLocal_lizaFinish
  · exact chatLocal_sendStarPhoto
  · exact chatLocal_sendChristmasTreePhoto
  · exact chatLocal_katyaFinish

/-- C10, at a concrete input: the `start` handler bound in the configuration
without placeholders, run for chats 1 and 2 against the sender that accepts
everything. -/
theorem registered_handlers_are_chat_local_witness :
    (mainBotStartCommandHandler "" 2 okSender (World.fresh ())).2.trace =
      ((mainBotStartCommandHandler "" 1 okSender (World.fresh ())).2.trace).map
        (Effect.retarget 2) ∧
    (mainBotStartCommandHandler "" 2 okSender (World.fresh ())).1 =
      (mainBotStartCommandHandler "" 1 okSender (World.fresh ())).1 :=
  (registered_handlers_are_chat_local cfgNoPlaceholders (fun _ => ⟨rfl, rfl⟩)
    "main" "start" (mainBotStartCommandHandler "")
    (List.mem_append_left _ (List.mem_cons_of_mem _ (List.mem_cons_self _ _)))).2
    1 2 okSender () (fun _ _ => rfl) (fun _ _ => rfl)

end NorthStar
